import Mathlib

/-!
Verification of the market-dashboard data/sentiment layer.

Shallow embedding of `src/app.py` (the InvestRight.AI Streamlit dashboard).
The network, the HTML parser and the VADER sentiment analyzer are external
effects; they enter the model as oracle inputs:

* the outcome of one `requests.get` + BeautifulSoup parse is a `FetchResult`:
  either an exception (`FetchResult.err`, covering network errors, timeouts
  and parse failures of the response body, all of which raise inside the same
  `try` block in the source) or the parsed list of `result__body` items;
* each parsed item (`RawItem`) carries exactly the fields the source reads
  from it: whether a `result__a` title anchor is present, its text and href,
  and the snippet text;
* the polarity analyzer is an oracle `String → ℚ` standing for
  `SentimentIntensityAnalyzer().polarity_scores(text)['compound']`.

Python floats are embedded as exact rationals `ℚ`; every concrete value used
in a theorem below is exactly representable in binary floating point and the
integer truncations agree at those points, so the `ℚ` results coincide with
the float results there.  Python's `int()` truncates toward zero, embedded as
`pyInt`.  A pandas float division by zero raises no exception but yields a
non-finite value (`inf`/`-inf`/`nan`); `PdVal.nonfinite` stands for any of
those.
-/

namespace MarketDashboard

/-- Python `int()` on a float: truncation toward zero. -/
def pyInt (q : ℚ) : ℤ :=
  if q < 0 then ⌈q⌉ else ⌊q⌋

/-- Python's substring operator `pat in s`, on explicit character lists
(structural recursion so that concrete instances evaluate). -/
def charsContain (s pat : List Char) : Bool :=
  match s with
  | [] => pat.isEmpty
  | _ :: rest => pat.isPrefixOf s || charsContain rest pat

/-- Python's substring operator `pat in s` on strings. -/
def strContains (s pat : String) : Bool :=
  charsContain s.data pat.data

/-- One `div.result__body` item as the source reads it (`app.py` lines
125-130): presence of the `a.result__a` anchor, its text and href, and the
snippet text (the empty string when the snippet anchor is missing, as in the
source's conditional on line 130). -/
structure RawItem where
  hasTitle : Bool
  title : String
  link : String
  snippet : String
  deriving DecidableEq, Repr

/-- Outcome of one `requests.get` + parse: an exception, or the list of
parsed `result__body` items. -/
inductive FetchResult where
  | err : FetchResult
  | ok : List RawItem → FetchResult
  deriving DecidableEq, Repr

/-- One row of the `combined_data` list (`app.py` line 141):
`{'Title', 'Source', 'Score', 'Link', 'Weight'}`. -/
structure Sample where
  title : String
  source : String
  score : ℚ
  link : String
  weight : ℚ
  deriving DecidableEq, Repr

/-- The dict returned by `get_sentiment_report` on success (`app.py`
line 161). -/
structure Report where
  score : ℤ
  rating : String
  data : List Sample
  count : ℕ
  deriving DecidableEq, Repr

/-- Source labelling by substring match on the href (`app.py` lines
132-137). -/
def sourceLabel (link : String) : String :=
  if strContains link "moneycontrol" || strContains link "economictimes" then
    "Financial News 📰"
  else if strContains link "bseindia" || strContains link "nseindia" then
    "Exchange Filing 🏛️"
  else if strContains link "groww" || strContains link "zerodha" then
    "Broker Note 📈"
  else if strContains link "reddit" then
    "Reddit 💬"
  else
    "Web News 🌐"

/-- Build one sample from a parsed item (`app.py` lines 128-141): the score
is the analyzer's compound polarity of `title + " " + snippet`, and the
weight is the literal `1.0`. -/
def buildSample (analyzer : String → ℚ) (it : RawItem) : Sample :=
  { title := it.title
    source := sourceLabel it.link
    score := analyzer (it.title ++ " " ++ it.snippet)
    link := it.link
    weight := 1 }

/-- The loop of `app.py` lines 125-141: items without a `result__a` anchor
are skipped, every other item contributes one sample. -/
def collectSamples (analyzer : String → ℚ) (results : List RawItem) : List Sample :=
  (results.filter (·.hasTitle)).map (buildSample analyzer)

/-- Line 151 of `app.py`:
`(df['Score'] * df['Weight']).sum() / df['Weight'].sum()`. -/
def weightedScore (samples : List Sample) : ℚ :=
  (samples.map (fun s => s.score * s.weight)).sum / (samples.map (·.weight)).sum

/-- Line 152 of `app.py`: `final_score = int((weighted_score + 1) * 50)`. -/
def finalScore (samples : List Sample) : ℤ :=
  pyInt ((weightedScore samples + 1) * 50)

/-- The rating chain of `app.py` lines 155-159. -/
def ratingLabel (final_score : ℤ) : String :=
  if final_score ≥ 80 then "Strong Buy (Bullish) 🟢"
  else if final_score ≥ 60 then "Accumulate (Positive) 📈"
  else if final_score ≥ 40 then "Hold (Neutral) ⚖️"
  else if final_score ≥ 20 then "Reduce (Cautious) ⚠️"
  else "Sell (Bearish) 🔴"

/-- Lines 147-161 of `app.py`: `None` when no sample was collected,
otherwise the score/rating/data/count dict. -/
def buildReport (combined : List Sample) : Option Report :=
  if combined.isEmpty then none
  else
    some { score := finalScore combined
           rating := ratingLabel (finalScore combined)
           data := combined
           count := combined.length }

/-- Line 100 of `app.py`: strip marketing suffixes from the query term. -/
def cleanQuery (query_term : String) : String :=
  ((((query_term.replace "Direct Plan" "").replace "Growth" "").replace
      "Option" "").replace "IPO" "").trim

/-- Primary search URL (`app.py` line 103). -/
def primaryUrl (query_term : String) : String :=
  "https://html.duckduckgo.com/html/?q=" ++ cleanQuery query_term ++ " stock market news"

/-- Fallback search URL (`app.py` line 120). -/
def fallbackUrl (query_term : String) : String :=
  "https://html.duckduckgo.com/html/?q=" ++ cleanQuery query_term ++ " finance news"

/-- The try block of `app.py` lines 113-123: the primary request's parsed
items are truncated to 8; only when that truncated list is empty is the
fallback request made, its items truncated to 5.  An exception from either
request propagates to the `except` handler (line 145), which returns `None` —
here `none`.  `primary` is the outcome of `requests.get(primaryUrl q)` and
`fallback` the outcome `requests.get(fallbackUrl q)` would produce; since
both requests carry no state, passing the fallback outcome as a value is
observationally the same as performing the request lazily. -/
def selectResults (primary fallback : FetchResult) : Option (List RawItem) :=
  match primary with
  | .err => none
  | .ok rs =>
    let results := rs.take 8
    if results.isEmpty then
      match fallback with
      | .err => none
      | .ok rs2 => some (rs2.take 5)
    else
      some results

/-- The function `get_sentiment_report` (`app.py` lines 98-161) given the
outcomes of the two possible search requests for the (cleaned) query term. -/
def get_sentiment_report (analyzer : String → ℚ)
    (primary fallback : FetchResult) : Option Report :=
  match selectResults primary fallback with
  | none => none
  | some results => buildReport (collectSamples analyzer results)

/-- The same function as called on a topic string against a network oracle
mapping each request URL to its outcome. -/
def get_sentiment_report_for (analyzer : String → ℚ)
    (fetch : String → FetchResult) (query_term : String) : Option Report :=
  get_sentiment_report analyzer (fetch (primaryUrl query_term))
    (fetch (fallbackUrl query_term))

/-- The sample list the pipeline aggregates for the given fetch outcomes:
empty on the exception path, otherwise the collected samples. -/
def samplesOf (analyzer : String → ℚ) (primary fallback : FetchResult) : List Sample :=
  match selectResults primary fallback with
  | none => []
  | some results => collectSamples analyzer results

/-! ## Corporate radar (`get_corporate_news`, `app.py` lines 165-198) -/

/-- One entry of the `news_items` list (`app.py` line 195). -/
structure NewsItem where
  title : String
  link : String
  tag : String
  deriving DecidableEq, Repr

/-- The tagging chain of `app.py` lines 187-193, applied to the lowercased
title. -/
def newsTag (title : String) : String :=
  let lower := title.toLower
  if strContains lower "dividend" || strContains lower "bonus" then
    "💰 Dividend/Bonus"
  else if strContains lower "profit" || strContains lower "loss" ||
      strContains lower "revenue" || strContains lower "q3" then
    "📊 Earnings"
  else if strContains lower "order" || strContains lower "contract" ||
      strContains lower "commission" || strContains lower "project" then
    "🚀 New Order/Project"
  else if strContains lower "merger" || strContains lower "acquisition" then
    "🤝 M&A / Deal"
  else
    "General"

/-- The function `get_corporate_news` (`app.py` lines 165-198) given the
outcome of its single search request: on any exception the handler returns the
empty list; otherwise the first 5 parsed items with a title anchor each
contribute one tagged entry. -/
def get_corporate_news (single : FetchResult) : List NewsItem :=
  match single with
  | .err => []
  | .ok rs =>
    ((rs.take 5).filter (·.hasTitle)).map
      (fun it => { title := it.title, link := it.link, tag := newsTag it.title })

/-! ## IPO engine (`get_ipo_data`, `app.py` lines 246-285) -/

/-- Result of a pandas float arithmetic step: a finite value, or a
non-finite float (`inf`/`-inf`/`nan`).  A pandas column division by zero
raises no exception but produces a non-finite value. -/
inductive PdVal where
  | fin : ℚ → PdVal
  | nonfinite : PdVal
  deriving DecidableEq, Repr

/-- Pandas float division: non-finite on a zero divisor, exact otherwise. -/
def pdDiv (a b : ℚ) : PdVal :=
  if b = 0 then .nonfinite else .fin (a / b)

/-- Scaling a pandas value by a finite constant preserves non-finiteness. -/
def pdScale (v : PdVal) (c : ℚ) : PdVal :=
  match v with
  | .fin q => .fin (q * c)
  | .nonfinite => .nonfinite

/-- Line 282 of `app.py` as a function of one row:
`(final_df['GMP'] / final_df['Price']) * 100`. -/
def gainOf (price gmp : ℚ) : PdVal :=
  pdScale (pdDiv gmp price) 100

/-- One dict of `manual_data` (`app.py` lines 248-279).  Field names follow
the source keys `Company`, `Type`, `Price`, `GMP`, `Open`, `Close`,
`Listing`, `Lot`, `Size`, `Sub_Retail`, `Sub_QIB`, `Sub_NII`, `Rating`,
`Sector` (`Type`, `open` are reserved words in Lean, hence `kind`,
`openDate`/`closeDate`). -/
structure IpoBase where
  company : String
  kind : String
  price : ℤ
  gmp : ℤ
  openDate : String
  closeDate : String
  listing : String
  lot : ℤ
  size : String
  subRetail : String
  subQIB : String
  subNII : String
  rating : String
  sector : String
  deriving DecidableEq, Repr

/-- A row of the returned frame: the manual fields plus the two derived
columns of `app.py` lines 282-283. -/
structure IpoRow extends IpoBase where
  gainPct : PdVal
  estListing : ℤ
  deriving DecidableEq, Repr

/-- The hardcoded `manual_data` list (`app.py` lines 248-279). -/
def manual_data : List IpoBase :=
  [{ company := "Shadowfax Technologies", kind := "Mainboard",
     price := 124, gmp := 6, openDate := "Jan 20, 2026",
     closeDate := "Jan 22, 2026", listing := "Jan 28, 2026",
     lot := 120, size := "₹1,907 Cr", subRetail := "2.43x",
     subQIB := "4.00x", subNII := "0.88x",
     rating := "Neutral", sector := "Logistics" },
   { company := "Hyundai Motor India", kind := "Mainboard",
     price := 1960, gmp := -30, openDate := "Feb 02, 2026",
     closeDate := "Feb 04, 2026", listing := "Feb 10, 2026",
     lot := 7, size := "₹27,870 Cr", subRetail := "0.50x",
     subQIB := "1.20x", subNII := "0.80x",
     rating := "Apply Long Term", sector := "Automobile" },
   { company := "Swiggy Limited", kind := "Mainboard",
     price := 390, gmp := 15, openDate := "Feb 15, 2026",
     closeDate := "Feb 17, 2026", listing := "Feb 22, 2026",
     lot := 38, size := "₹11,300 Cr", subRetail := "--",
     subQIB := "--", subNII := "--",
     rating := "Watch", sector := "Food Tech" },
   { company := "Biopol Chemicals", kind := "SME",
     price := 108, gmp := 15, openDate := "Feb 06, 2026",
     closeDate := "Feb 10, 2026", listing := "Feb 13, 2026",
     lot := 1200, size := "₹31.26 Cr", subRetail := "1.00x",
     subQIB := "1.00x", subNII := "1.00x",
     rating := "Apply", sector := "Chemicals" },
   { company := "Shayona Engineering", kind := "SME",
     price := 144, gmp := 35, openDate := "Jan 22, 2026",
     closeDate := "Jan 27, 2026", listing := "Jan 30, 2026",
     lot := 1000, size := "₹28 Cr", subRetail := "1.34x",
     subQIB := "--", subNII := "--",
     rating := "May Apply", sector := "Engineering" }]

/-- The function `get_ipo_data` (`app.py` lines 246-285): it takes no
arguments and touches no network or other effect, so it is embedded as a
constant: the hardcoded rows extended with the two derived columns
`Gain% = (GMP / Price) * 100` and `Est_Listing = Price + GMP`
(lines 282-283). -/
def get_ipo_data : List IpoRow :=
  manual_data.map (fun r =>
    { toIpoBase := r
      gainPct := gainOf (r.price : ℚ) (r.gmp : ℚ)
      estListing := r.price + r.gmp })

/-! ## TTL memoization cache (`st.cache_data`)

The decorator `st.cache_data` comes from the Streamlit framework, whose code
is not part of this repository, so its behaviour is modelled from the spec.
The TTLs declared at the decoration sites are in `src/app.py` itself. -/

/-- Modelled from the spec: one entry of the process-wide memoization table
(§3 `CacheEntry`): key (the argument tuple; the function identity is fixed by
which table is used), stored value, and creation timestamp (seconds). -/
structure CacheEntry (α β : Type) where
  key : α
  value : β
  created : ℕ
  deriving Repr

/-- Modelled from the spec: an entry is fresh when `now - created < ttl`;
`ttl = none` (a decorator without a `ttl` argument) never expires. -/
def isFresh (ttl : Option ℕ) (now created : ℕ) : Bool :=
  match ttl with
  | none => true
  | some t => now - created < t

/-- Modelled from the spec: one call through the cached wrapper
(§4.4 `cached`): on a fresh hit, return the stored value without invoking
the function; on a miss or a stale entry, invoke the function, store the
result with `created = now`, and return it.  The third component of the
result records whether the underlying function was invoked on this call. -/
def cacheCall {α β : Type} [DecidableEq α] (fn : α → β) (ttl : Option ℕ)
    (now : ℕ) (table : List (CacheEntry α β)) (a : α) :
    β × List (CacheEntry α β) × Bool :=
  match table.find? (fun e => e.key = a) with
  | some e =>
    if isFresh ttl now e.created then (e.value, table, false)
    else
      let v := fn a
      (v, table.map (fun e' => if e'.key = a then ⟨a, v, now⟩ else e'), true)
  | none =>
    let v := fn a
    (v, ⟨a, v, now⟩ :: table, true)

/-- TTL declared on `get_sentiment_report` (`app.py` line 97):
`@st.cache_data(ttl=600)` — 600 seconds. -/
def sentimentTTL : Option ℕ := some 600

/-- TTL declared on `load_stock_list` (`app.py` line 78): a bare
`@st.cache_data`, i.e. no `ttl` argument — entries never expire. -/
def stockListTTL : Option ℕ := none

end MarketDashboard

namespace MarketDashboard

/-! ## Concrete fixtures used by the theorems below -/

/-- A constant polarity analyzer (every text scores 0). -/
def anz0 : String → ℚ := fun _ => 0

/-- A constant polarity analyzer (every text scores 1/2). -/
def anzHalf : String → ℚ := fun _ => 1/2

/-- The first sample of the spec's aggregation test vector:
score 1.0, weight 2.0. -/
def s1 : Sample :=
  { title := "a", source := "Web News 🌐", score := 1, link := "", weight := 2 }

/-- The second sample of the spec's aggregation test vector:
score -1.0, weight 1.0. -/
def s2 : Sample :=
  { title := "b", source := "Web News 🌐", score := -1, link := "", weight := 1 }

/-- A parsed item whose href labels it as edited financial press. -/
def itemMC : RawItem :=
  { hasTitle := true, title := "RIL profit rises", link := "https://www.moneycontrol.com/a",
    snippet := "s" }

/-- The same parsed item except for the href, which labels it as forum
commentary. -/
def itemRD : RawItem :=
  { hasTitle := true, title := "RIL profit rises", link := "https://reddit.com/r/a",
    snippet := "s" }

/-- A well-formed parsed item for the fallback-source scenarios. -/
def itemGood : RawItem :=
  { hasTitle := true, title := "TCS wins big order", link := "https://example.com/tcs",
    snippet := "" }

/-- A well-formed parsed item for the template-failure scenarios. -/
def itemFb : RawItem :=
  { hasTitle := true, title := "INFY announces dividend", link := "https://example.com/infy",
    snippet := "" }

/-- A parsed item without a `result__a` title anchor. -/
def itemNoTitle : RawItem :=
  { hasTitle := false, title := "", link := "https://example.com/n", snippet := "" }

/-! ## Claims -/

/-- Claim **C3**: the rating classification is total on confidence values 0..100
and splits them into exactly five ordered, non-overlapping bands with
boundaries [0,20) bearish, [20,40) cautious, [40,60) neutral, [60,80)
positive, [80,100] strongly positive; confidence 20 lands in the cautious
band (not the bottom band) and confidence 100 in the top band; the five
band labels are pairwise distinct. -/
theorem C3_rating_bands :
    (∀ n : ℤ, 0 ≤ n → n < 20 → ratingLabel n = "Sell (Bearish) 🔴") ∧
    (∀ n : ℤ, 20 ≤ n → n < 40 → ratingLabel n = "Reduce (Cautious) ⚠️") ∧
    (∀ n : ℤ, 40 ≤ n → n < 60 → ratingLabel n = "Hold (Neutral) ⚖️") ∧
    (∀ n : ℤ, 60 ≤ n → n < 80 → ratingLabel n = "Accumulate (Positive) 📈") ∧
    (∀ n : ℤ, 80 ≤ n → n ≤ 100 → ratingLabel n = "Strong Buy (Bullish) 🟢") ∧
    ratingLabel 20 = "Reduce (Cautious) ⚠️" ∧
    ratingLabel 100 = "Strong Buy (Bullish) 🟢" ∧
    ["Sell (Bearish) 🔴", "Reduce (Cautious) ⚠️", "Hold (Neutral) ⚖️",
      "Accumulate (Positive) 📈", "Strong Buy (Bullish) 🟢"].Nodup := by
  refine ⟨?_, ?_, ?_, ?_, ?_, by decide, by decide, by decide⟩ <;>
    · intro n h1 h2
      unfold ratingLabel
      split_ifs <;> first | rfl | (exfalso; omega)

/-- Claim **C3** witness: one confidence value inside each of the five bands. -/
theorem C3_rating_bands_witness :
    ratingLabel 5 = "Sell (Bearish) 🔴" ∧
    ratingLabel 20 = "Reduce (Cautious) ⚠️" ∧
    ratingLabel 45 = "Hold (Neutral) ⚖️" ∧
    ratingLabel 66 = "Accumulate (Positive) 📈" ∧
    ratingLabel 100 = "Strong Buy (Bullish) 🟢" :=
  ⟨C3_rating_bands.1 5 (by decide) (by decide),
   C3_rating_bands.2.1 20 (by decide) (by decide),
   C3_rating_bands.2.2.1 45 (by decide) (by decide),
   C3_rating_bands.2.2.2.1 66 (by decide) (by decide),
   C3_rating_bands.2.2.2.2.1 100 (by decide) (by decide)⟩

/-- Claim **C4**: with an empty sample list the aggregation returns the `None`
sentinel — `buildReport []` is `none` before the weighted-mean expression of
line 151 is ever reached — and the whole pipeline returns `none` whenever it
collected no samples, for every analyzer, every pair of fetch outcomes and
every input topic. -/
theorem C4_empty_samples_sentinel :
    buildReport [] = none ∧
    (∀ (analyzer : String → ℚ) (primary fallback : FetchResult),
      samplesOf analyzer primary fallback = [] →
      get_sentiment_report analyzer primary fallback = none) ∧
    (∀ (analyzer : String → ℚ) (fetch : String → FetchResult) (topic : String),
      samplesOf analyzer (fetch (primaryUrl topic)) (fetch (fallbackUrl topic)) = [] →
      get_sentiment_report_for analyzer fetch topic = none) := by
  have h2 : ∀ (analyzer : String → ℚ) (primary fallback : FetchResult),
      samplesOf analyzer primary fallback = [] →
      get_sentiment_report analyzer primary fallback = none := by
    intro analyzer primary fallback h
    unfold samplesOf at h
    unfold get_sentiment_report
    cases hsel : selectResults primary fallback with
    | none => simp
    | some results =>
      rw [hsel] at h
      change collectSamples analyzer results = [] at h
      change buildReport (collectSamples analyzer results) = none
      rw [h]
      rfl
  exact ⟨rfl, h2, fun analyzer fetch topic h => h2 analyzer _ _ h⟩

/-- Claim **C4** witness: a topic whose searches parse zero items yields `none`. -/
theorem C4_empty_samples_sentinel_witness :
    get_sentiment_report_for anz0 (fun _ => FetchResult.ok []) "RELIANCE" = none :=
  C4_empty_samples_sentinel.2.2 anz0 (fun _ => FetchResult.ok []) "RELIANCE" rfl

/-- Claim **C9**: `get_ipo_data` takes no input and touches no external source (it
is a constant of the embedding); it is the fixed five-record table built from
the hardcoded `manual_data`, and on every record the derived columns satisfy
`Gain% = GMP / Price × 100` (the explicit rationals below are exactly
`gmp/price·100` for each of the five `(price, gmp)` pairs) and
`Est_Listing = Price + GMP`. -/
theorem C9_ipo_table_fixed :
    get_ipo_data.length = 5 ∧
    get_ipo_data.map (fun r => (r.company, r.price, r.gmp)) =
      [("Shadowfax Technologies", 124, 6),
       ("Hyundai Motor India", 1960, -30),
       ("Swiggy Limited", 390, 15),
       ("Biopol Chemicals", 108, 15),
       ("Shayona Engineering", 144, 35)] ∧
    get_ipo_data.map (fun r => (r.gainPct, r.estListing)) =
      [(PdVal.fin (150 / 31), 130),
       (PdVal.fin (-75 / 49), 1930),
       (PdVal.fin (50 / 13), 405),
       (PdVal.fin (125 / 9), 123),
       (PdVal.fin (875 / 36), 179)] := by
  refine ⟨rfl, by decide, ?_⟩
  norm_num [get_ipo_data, manual_data, gainOf, pdDiv, pdScale]

/-- Claim **C10**: `get_sentiment_report` returns the same sentinel `none` on the
exception path and on the zero-items path, so the two outcomes are
indistinguishable at this interface. -/
theorem C10_none_conflates_error_and_empty :
    (∀ (analyzer : String → ℚ) (fallback : FetchResult),
      get_sentiment_report analyzer .err fallback = none) ∧
    (∀ (analyzer : String → ℚ) (rs : List RawItem) (fallback : FetchResult)
        (results : List RawItem),
      selectResults (.ok rs) fallback = some results →
      collectSamples analyzer results = [] →
      get_sentiment_report analyzer (.ok rs) fallback = none) ∧
    (∀ (analyzer : String → ℚ) (fallback : FetchResult),
      get_sentiment_report analyzer .err fallback =
        get_sentiment_report analyzer (.ok []) (.ok [])) := by
  refine ⟨fun _ _ => rfl, ?_, fun _ _ => rfl⟩
  intro analyzer rs fallback results hsel h
  unfold get_sentiment_report
  rw [hsel]
  change buildReport (collectSamples analyzer results) = none
  rw [h]
  rfl

/-- Claim **C10** witness: a response whose items all lack a title anchor parses to
zero samples and yields `none`, the same value as the exception path. -/
theorem C10_none_conflates_error_and_empty_witness :
    get_sentiment_report anz0 (.ok [itemNoTitle]) (.ok []) = none :=
  C10_none_conflates_error_and_empty.2.1 anz0 [itemNoTitle] (.ok []) [itemNoTitle] rfl rfl

/-- Claim **C1** counterexample: on the claim's own test vector
`[(score 1.0, weight 2.0), (score -1.0, weight 1.0)]` the weighted mean is
`1/3` as claimed, but the confidence produced by line 152 is `66`, not the
claimed `round((1/3 + 1) × 50) = 67`: `int()` truncates. -/
theorem C1_truncation_counterexample :
    weightedScore [s1, s2] = 1 / 3 ∧
    (buildReport [s1, s2]).map Report.score = some 66 ∧
    (66 : ℤ) ≠ 67 := by
  have hws : weightedScore [s1, s2] = 1 / 3 := by
    show ((1 : ℚ) * 2 + ((-1) * 1 + 0)) / (2 + (1 + 0)) = 1 / 3
    norm_num
  refine ⟨hws, ?_, by decide⟩
  have hfs : finalScore [s1, s2] = 66 := by
    rw [finalScore, hws, pyInt, if_neg] <;> norm_num
  simp [buildReport, hfs]

/-- Claim **C1** amended: for every non-empty sample list the report's confidence
is the Python `int()` truncation (not the rounding) of
`(Σ(score·weight)/Σ(weight) + 1) × 50`; on the test vector
`[(1.0, 2.0), (-1.0, 1.0)]` the weighted mean is `1/3` and the confidence is
`66`, still in the positive band. -/
theorem C1_truncated_confidence (combined : List Sample)
    (h : combined ≠ []) :
    buildReport combined = some
      { score := pyInt ((weightedScore combined + 1) * 50)
        rating := ratingLabel (pyInt ((weightedScore combined + 1) * 50))
        data := combined
        count := combined.length } ∧
    weightedScore [s1, s2] = 1 / 3 ∧
    (buildReport [s1, s2]).map Report.score = some 66 ∧
    ratingLabel 66 = "Accumulate (Positive) 📈" := by
  have hws : weightedScore [s1, s2] = 1 / 3 := by
    show ((1 : ℚ) * 2 + ((-1) * 1 + 0)) / (2 + (1 + 0)) = 1 / 3
    norm_num
  have hfs : finalScore [s1, s2] = 66 := by
    rw [finalScore, hws, pyInt, if_neg] <;> norm_num
  refine ⟨?_, hws, by simp [buildReport, hfs], by decide⟩
  rw [buildReport, if_neg (by simpa using h)]
  rfl

/-- Claim **C1** witness for the amended claim at the concrete two-sample list. -/
theorem C1_truncated_confidence_witness :
    buildReport [s1, s2] = some
      { score := pyInt ((weightedScore [s1, s2] + 1) * 50)
        rating := ratingLabel (pyInt ((weightedScore [s1, s2] + 1) * 50))
        data := [s1, s2]
        count := 2 } :=
  (C1_truncated_confidence [s1, s2] (List.cons_ne_nil s1 [s2])).1

/-- Claim **C2** counterexample: the pipeline labels an edited-financial-press item
and a forum item with different source-types but gives both the weight `1.0`
(line 141) — the financial-press weight is not strictly higher — and the two
one-item response lists, identical except for the source-type of their item,
produce the same aggregate score. -/
theorem C2_equal_weights_counterexample :
    (buildSample anzHalf itemMC).source = "Financial News 📰" ∧
    (buildSample anzHalf itemRD).source = "Reddit 💬" ∧
    (buildSample anzHalf itemMC).weight = 1 ∧
    (buildSample anzHalf itemRD).weight = 1 ∧
    ¬ (buildSample anzHalf itemMC).weight > (buildSample anzHalf itemRD).weight ∧
    (get_sentiment_report anzHalf (.ok [itemMC]) .err).map Report.score =
      (get_sentiment_report anzHalf (.ok [itemRD]) .err).map Report.score := by
  refine ⟨by decide, by decide, rfl, rfl, by norm_num [buildSample], rfl⟩

/-- Claim **C2** amended: every sample is weighted by the literal `1.0` whatever
its source-type; relabeling an item's link changes neither its score nor its
weight; and any two sample lists with the same score and weight sequences —
in particular lists differing only in source-type — get the same aggregate
score. -/
theorem C2_weights_ignore_source :
    (∀ (analyzer : String → ℚ) (it : RawItem), (buildSample analyzer it).weight = 1) ∧
    (∀ (analyzer : String → ℚ) (it : RawItem) (link2 : String),
      (buildSample analyzer { it with link := link2 }).score =
        (buildSample analyzer it).score ∧
      (buildSample analyzer { it with link := link2 }).weight =
        (buildSample analyzer it).weight) ∧
    (∀ l₁ l₂ : List Sample,
      l₁.map (fun s => (s.score, s.weight)) = l₂.map (fun s => (s.score, s.weight)) →
      (buildReport l₁).map Report.score = (buildReport l₂).map Report.score) := by
  refine ⟨fun _ _ => rfl, fun _ _ _ => ⟨rfl, rfl⟩, ?_⟩
  intro l₁ l₂ h
  have hsw : l₁.map (fun s => s.score * s.weight) = l₂.map (fun s => s.score * s.weight) := by
    have := congrArg (List.map (fun p : ℚ × ℚ => p.1 * p.2)) h
    simpa [List.map_map, Function.comp] using this
  have hw : l₁.map Sample.weight = l₂.map Sample.weight := by
    have := congrArg (List.map (fun p : ℚ × ℚ => p.2)) h
    simpa [List.map_map, Function.comp] using this
  have hfs : finalScore l₁ = finalScore l₂ := by
    unfold finalScore weightedScore
    rw [hsw, hw]
  cases l₁ with
  | nil =>
    cases l₂ with
    | nil => rfl
    | cons b bs => simp at h
  | cons a as =>
    cases l₂ with
    | nil => simp at h
    | cons b bs => simp [buildReport, hfs]

/-- Claim **C2** witness for the amended claim: two one-sample lists that differ
only in the source-type field receive the same aggregate score. -/
theorem C2_weights_ignore_source_witness :
    (buildReport [(⟨"t", "Financial News 📰", 1 / 2, "a", 1⟩ : Sample)]).map Report.score =
      (buildReport [(⟨"t", "Reddit 💬", 1 / 2, "b", 1⟩ : Sample)]).map Report.score :=
  C2_weights_ignore_source.2.2 _ _ rfl

/-- Claim **C5** counterexample: with source A (the primary query) failing on a
network exception and source B (the fallback query) succeeding with one
item, the claim expects B's normalized output; the code returns `none`,
because the `except` handler aborts the whole cascade — yet B's output is a
real report, not `none`. -/
theorem C5_cascade_counterexample :
    get_sentiment_report anz0 .err (.ok [itemGood]) = none ∧
    buildReport (collectSamples anz0 [itemGood]) ≠ none := by
  constructor
  · rfl
  · simp [buildReport, collectSamples, itemGood]

/-- Claim **C5** amended: the cascade advances to the fallback source only when
the primary request succeeds with zero parsed items; a network or parse
exception on the primary request aborts the cascade and returns the `None`
sentinel without consulting the fallback; when the primary succeeds with
items, the result is built from those items alone (the fallback outcome is
irrelevant); and a corporate-news fetch that fails returns the empty list,
not an exception. -/
theorem C5_cascade_on_empty_only :
    (∀ (analyzer : String → ℚ) (fallback : FetchResult),
      get_sentiment_report analyzer .err fallback = none) ∧
    (∀ (analyzer : String → ℚ) (rs : List RawItem) (fallback : FetchResult),
      rs.take 8 ≠ [] →
      get_sentiment_report analyzer (.ok rs) fallback =
        buildReport (collectSamples analyzer (rs.take 8))) ∧
    (∀ (analyzer : String → ℚ),
      get_sentiment_report analyzer (.ok []) .err = none) ∧
    (∀ (analyzer : String → ℚ) (rs2 : List RawItem),
      get_sentiment_report analyzer (.ok []) (.ok rs2) =
        buildReport (collectSamples analyzer (rs2.take 5))) ∧
    get_corporate_news .err = [] := by
  refine ⟨fun _ _ => rfl, ?_, fun _ => rfl, fun _ _ => rfl, rfl⟩
  intro analyzer rs fallback h
  have hne : (List.take 8 rs).isEmpty = false := by
    simpa [List.isEmpty_iff] using h
  simp [get_sentiment_report, selectResults, hne]

/-- Claim **C5** witness: the primary outcome alone determines the result when it
has items; with one parsed item the report is built from it and the fallback
outcome is never consulted. -/
theorem C5_cascade_on_empty_only_witness :
    get_sentiment_report anz0 (.ok [itemGood]) .err =
      buildReport (collectSamples anz0 ([itemGood].take 8)) :=
  C5_cascade_on_empty_only.2.1 anz0 [itemGood] .err (by simp)

/-- Claim **C6** counterexample: the master stock list is not cached with a
~24-hour TTL — `load_stock_list` is decorated with a bare `st.cache_data`
(line 78), whose entries never expire: a second identical call 86401 seconds
(> 24 h) after the first still does not re-invoke the underlying function. -/
theorem C6_stocklist_never_expires :
    stockListTTL = none ∧
    stockListTTL ≠ some 86400 ∧
    isFresh stockListTTL 86401 0 = true ∧
    (cacheCall (fun n : ℕ => n + 1) stockListTTL 86401
        (cacheCall (fun n : ℕ => n + 1) stockListTTL 0 [] 0).2.1 0).2.2 = false := by
  refine ⟨rfl, by decide, rfl, by decide⟩

/-- Claim **C6** amended: a first cached call invokes the function and stores the
result; a second call with identical arguments while the entry is fresh
returns the stored value without invoking the function; with a declared TTL,
a call after expiry invokes it again; the sentiment TTL is 600 s (10 min),
but the stock master list is cached with no TTL (entries never expire). -/
theorem C6_cache_idempotence (α β : Type) [DecidableEq α] (fn : α → β)
    (ttl : Option ℕ) (t0 t1 : ℕ) (a : α) :
    (cacheCall fn ttl t0 [] a).2.2 = true ∧
    (cacheCall fn ttl t0 [] a).1 = fn a ∧
    (isFresh ttl t1 t0 = true →
      cacheCall fn ttl t1 (cacheCall fn ttl t0 [] a).2.1 a =
        (fn a, (cacheCall fn ttl t0 [] a).2.1, false)) ∧
    (∀ t : ℕ, ttl = some t → t0 + t ≤ t1 →
      (cacheCall fn ttl t1 (cacheCall fn ttl t0 [] a).2.1 a).2.2 = true) ∧
    sentimentTTL = some 600 ∧
    stockListTTL = none := by
  have hT : (cacheCall fn ttl t0 [] a).2.1 = [⟨a, fn a, t0⟩] := rfl
  have hfind : List.find? (fun e => e.key = a) [(⟨a, fn a, t0⟩ : CacheEntry α β)] =
      some ⟨a, fn a, t0⟩ := by
    simp [List.find?]
  refine ⟨rfl, rfl, ?_, ?_, rfl, rfl⟩
  · intro hf
    rw [hT]
    unfold cacheCall
    rw [hfind]
    simp [hf]
  · intro t htl hle
    subst htl
    have hf : isFresh (some t) t1 t0 = false := by
      simp only [isFresh]
      simp only [decide_eq_false_iff_not]
      omega
    rw [hT]
    unfold cacheCall
    rw [hfind]
    simp [hf]

/-- Claim **C6** witness: with the sentiment TTL of 600 s, a repeat call at
t = 599 s returns the cached value without invoking the function, and a
repeat call at t = 600 s invokes it again. -/
theorem C6_cache_idempotence_witness :
    cacheCall (fun n : ℕ => n + 1) (some 600) 599
        (cacheCall (fun n : ℕ => n + 1) (some 600) 0 [] 0).2.1 0 =
      (1, (cacheCall (fun n : ℕ => n + 1) (some 600) 0 [] 0).2.1, false) ∧
    (cacheCall (fun n : ℕ => n + 1) (some 600) 600
        (cacheCall (fun n : ℕ => n + 1) (some 600) 0 [] 0).2.1 0).2.2 = true :=
  ⟨(C6_cache_idempotence ℕ ℕ (fun n => n + 1) (some 600) 0 599 0).2.2.1 (by decide),
   (C6_cache_idempotence ℕ ℕ (fun n => n + 1) (some 600) 0 600 0).2.2.2.1 600 rfl
     (by decide)⟩

/-- Claim **C7** counterexample: line 282 has no zero-price branch — at price 0
the pandas division yields a non-finite value (`inf`/`nan`), not the claimed
`0`. -/
theorem C7_zero_price_counterexample :
    gainOf 0 6 = PdVal.nonfinite ∧ PdVal.nonfinite ≠ PdVal.fin 0 := by
  exact ⟨by simp [gainOf, pdDiv, pdScale], fun h => PdVal.noConfusion h⟩

/-- Claim **C7** amended: the derived percentage equals `metric / price × 100`
whenever `price > 0`; at `price = 0` it is a non-finite float value (no
exception, but not `0`); every record of the hardcoded table has a positive
price, so the zero case never arises on the actual data. -/
theorem C7_gain_percentage (price gmp : ℚ) :
    (0 < price → gainOf price gmp = PdVal.fin (gmp / price * 100)) ∧
    (price = 0 → gainOf price gmp = PdVal.nonfinite) ∧
    get_ipo_data.all (fun r => 0 < r.price) = true := by
  refine ⟨?_, ?_, by decide⟩
  · intro hp
    rw [gainOf, pdDiv, if_neg hp.ne']
    rfl
  · intro hp
    rw [gainOf, pdDiv, if_pos hp]
    rfl

/-- Claim **C7** witness: the formula at the first table row's price and premium,
and the non-finite result at a zero price. -/
theorem C7_gain_percentage_witness :
    gainOf 124 6 = PdVal.fin (6 / 124 * 100) ∧ gainOf 0 6 = PdVal.nonfinite :=
  ⟨(C7_gain_percentage 124 6).1 (by norm_num), (C7_gain_percentage 0 6).2.1 rfl⟩

/-- Claim **C8** counterexample: a network failure of the primary query template
empties and aborts the whole sample list even though the fallback template
would have contributed an item — the report is `none` while the fallback's
items parse to a non-empty sample list. -/
theorem C8_template_failure_aborts :
    samplesOf anz0 .err (.ok [itemFb]) = [] ∧
    get_sentiment_report anz0 .err (.ok [itemFb]) = none ∧
    collectSamples anz0 [itemFb] ≠ [] := by
  refine ⟨rfl, rfl, by simp [collectSamples, itemFb]⟩

/-- Claim **C8** amended: failure isolation holds per parsed item, not per query
template: an item without a title anchor is skipped while the remaining
items still contribute their samples; but a network or parse exception on a
template aborts the entire report with `none` (the fallback template runs
only when the primary succeeded with zero items). -/
theorem C8_item_level_isolation :
    (∀ (analyzer : String → ℚ) (it : RawItem) (its : List RawItem),
      it.hasTitle = false →
      collectSamples analyzer (it :: its) = collectSamples analyzer its) ∧
    (∀ (analyzer : String → ℚ) (fallback : FetchResult),
      get_sentiment_report analyzer .err fallback = none) := by
  refine ⟨?_, fun _ _ => rfl⟩
  intro analyzer it its h
  simp [collectSamples, List.filter_cons, h]

/-- Claim **C8** witness: a title-less item in front of a good item contributes
nothing while the good item's sample survives. -/
theorem C8_item_level_isolation_witness :
    collectSamples anz0 (itemNoTitle :: [itemFb]) = collectSamples anz0 [itemFb] :=
  C8_item_level_isolation.1 anz0 itemNoTitle [itemFb] rfl

end MarketDashboard
